import Mathlib

/-!
Verification of the caching and staleness layer of the crypto-ai-dashboard
backend (src/backend). The Python sources are shallowly embedded: pure
functions become Lean functions over ℚ and String; the Redis store becomes an
explicit association list with per-entry absolute expiry times; wall-clock
time is an explicit `Nat` argument; Python exceptions become `Except`;
outcomes of outbound HTTP calls and of the transformer classifier are
explicit parameters.  Modelling conventions:

* `str.lower()` / `.upper()` are modelled with `Char.toLower` / `Char.toUpper`
  mapped over the characters (ASCII case folding; every identifier and
  keyword in the program is ASCII).
* JSON (de)serialisation through Redis is modelled by the `CacheVal` sum:
  each cache namespace stores exactly one payload shape, and a value of a
  different shape under a namespace key (impossible in any run of the
  program, since every write to a namespace uses its shape) is read as a
  miss.
* Number formatting (`f"{x:.2f}"`) is modelled by `formatFixed2`; Python
  rounds half-to-even while `formatFixed2` rounds half-up - no claim below
  depends on behaviour at exact ties.
* Redis `SETEX key ttl v` stores `v` with absolute expiry `now + ttl`; a
  `GET` at time `now` returns the value iff `now < expiry`, matching Redis
  eviction (an expired entry is indistinguishable from an absent one).
-/

/-- Model of Python `str.lower()` (ASCII case folding). -/
def pyLower (s : String) : String := ⟨s.data.map Char.toLower⟩

/-- Model of Python `str.upper()` (ASCII case folding). -/
def pyUpper (s : String) : String := ⟨s.data.map Char.toUpper⟩

/-- Does `needle` occur contiguously in `hay`? Helper for `containsSub`. -/
def subseqAt : List Char → List Char → Bool
  | needle, [] => needle.isEmpty
  | needle, c :: rest => needle.isPrefixOf (c :: rest) || subseqAt needle rest

/-- Model of Python `needle in hay` on strings (substring test). -/
def containsSub (hay needle : String) : Bool := subseqAt needle.data hay.data

/-- Model of Python `any(term in q for term in terms)`. -/
def anyTerm (q : String) (terms : List String) : Bool :=
  terms.any (fun t => containsSub q t)

/-- backend/cache_utils.py `get_cache_key`: `f"{prefix}:{identifier.lower()}"`
(the copy in backend/main.py lines 74-76 is identical). -/
def get_cache_key (pre identifier : String) : String :=
  pre ++ ":" ++ pyLower identifier

/-- backend/main.py line 49: `REDIS_CACHE_TTL = int(os.getenv("REDIS_CACHE_TTL", 300))`
with the environment unset. -/
def REDIS_CACHE_TTL : Nat := 300

/-- backend/cache_utils.py lines 6-11: the `CACHE_TTLS` dict (environment unset),
including the `full_response` namespace. -/
def CACHE_TTLS : List (String × Nat) :=
  [("market_data", 300), ("coin_data", 600), ("sentiment", 3600), ("full_response", 1800)]

/-- backend/main.py lines 51-55: main.py declares its own `CACHE_TTLS` dict,
which has no `full_response` entry. -/
def MAIN_CACHE_TTLS : List (String × Nat) :=
  [("market_data", 300), ("coin_data", 600), ("sentiment", 3600)]

/-- Dict lookup `d[k]` for the TTL dicts (every lookup in the source uses a
present key, so the default 0 is never read). -/
def ttlOf (d : List (String × Nat)) (k : String) : Nat :=
  (d.lookup k).getD 0

/-- A market snapshot for one coin, as returned by the upstream
`/coins/markets` endpoint (the fields the program reads). -/
structure Coin where
  id : String
  symbol : String
  name : String
  current_price : ℚ
  market_cap : ℚ
  total_volume : ℚ
  price_change_percentage_24h : ℚ
deriving DecidableEq

/-- A classifier result: `{label, score}`. -/
structure SentimentResult where
  label : String
  score : ℚ
deriving DecidableEq

/-- The `AIResponse` pydantic model of backend/main.py (metrics as an ordered
string-to-string dict). -/
structure AIResponse where
  text : String
  sentiment : String
  confidence : ℚ
  metrics : List (String × String)
deriving DecidableEq

/-- A JSON value stored in Redis by this program: each namespace serialises
exactly one payload shape. `coinVal none` is the negative sentinel: the
literal string "null" written by `json.dumps(None)`. -/
inductive CacheVal where
  | marketList (l : List Coin)
  | coinVal (c : Option Coin)
  | sentimentVal (s : SentimentResult)
  | fullResp (r : AIResponse)
deriving DecidableEq

/-- The Redis store: key, value, absolute expiry time. -/
structure Store where
  entries : List (String × CacheVal × Nat)
deriving DecidableEq

/-- Fresh store. -/
def Store.empty : Store := ⟨[]⟩

/-- Redis GET at time `now`: an entry is returned iff it has not expired.
Redis evicts on expiry, so an expired entry reads as absent. -/
def Store.get (s : Store) (now : Nat) (k : String) : Option CacheVal :=
  match s.entries.find? (fun e => e.1 == k) with
  | some (_, v, exp) => if now < exp then some v else none
  | none => none

/-- Redis SETEX at time `now`: replaces any entry under `k` with value `v`
expiring at `now + ttl`. -/
def Store.setex (s : Store) (now ttl : Nat) (k : String) (v : CacheVal) : Store :=
  ⟨(k, v, now + ttl) :: s.entries.filter (fun e => !(e.1 == k))⟩

/-- The raw (value, expiry) pair under a key, ignoring expiry - used to state
facts about what was written and with which TTL. -/
def Store.lookupEntry (s : Store) (k : String) : Option (CacheVal × Nat) :=
  (s.entries.find? (fun e => e.1 == k)).map (fun e => (e.2.1, e.2.2))

/-- Read a `market_data` namespace entry (a JSON list of coins). -/
def readMarket (s : Store) (now : Nat) (k : String) : Option (List Coin) :=
  match s.get now k with
  | some (.marketList l) => some l
  | _ => none

/-- Read a `coin` namespace entry: `some none` is a hit on the negative
sentinel "null" (Python: the string "null" is truthy, and `json.loads("null")`
is `None`). -/
def readCoinEntry (s : Store) (now : Nat) (k : String) : Option (Option Coin) :=
  match s.get now k with
  | some (.coinVal c) => some c
  | _ => none

/-- Read a `sentiment` namespace entry. -/
def readSent (s : Store) (now : Nat) (k : String) : Option SentimentResult :=
  match s.get now k with
  | some (.sentimentVal r) => some r
  | _ => none

/-- Read a `full_response` namespace entry. -/
def readResp (s : Store) (now : Nat) (k : String) : Option AIResponse :=
  match s.get now k with
  | some (.fullResp r) => some r
  | _ => none

/-- backend/services.py lines 12-48: the `CRYPTO_KEYWORDS` dict as an ordered
list of (keyword, canonical id) pairs (Python dicts iterate in insertion
order). backend/main.py lines 540-576 inline the identical table. -/
def CRYPTO_KEYWORDS : List (String × String) :=
  [("bitcoin", "bitcoin"), ("btc", "bitcoin"),
   ("wrapped bitcoin", "bitcoin"),
   ("bitcoin cash", "bitcoin-cash"), ("bch", "bitcoin-cash"),
   ("ethereum", "ethereum"), ("eth", "ethereum"),
   ("lido staked ether", "ethereum"), ("steth", "ethereum"),
   ("tether", "tether"), ("usdt", "tether"),
   ("usdc", "usd-coin"), ("usd coin", "usd-coin"),
   ("dai", "dai"),
   ("ethena usde", "ethena-usd"),
   ("cardano", "cardano"), ("ada", "cardano"),
   ("dogecoin", "dogecoin"), ("doge", "dogecoin"),
   ("ripple", "ripple"), ("xrp", "ripple"),
   ("solana", "solana"), ("sol", "solana"),
   ("polkadot", "polkadot"), ("dot", "polkadot"),
   ("chainlink", "chainlink"), ("link", "chainlink"),
   ("avalanche", "avalanche-2"), ("avax", "avalanche-2"),
   ("litecoin", "litecoin"), ("ltc", "litecoin"),
   ("tron", "tron"), ("trx", "tron"),
   ("stellar", "stellar"), ("xlm", "stellar"),
   ("hedera", "hedera"), ("hbar", "hedera"),
   ("shiba inu", "shiba-inu"), ("shib", "shiba-inu"),
   ("leo", "leo-token"),
   ("mantra", "mantra-dao"), ("om", "mantra-dao"),
   ("sui", "sui"),
   ("toncoin", "the-open-network"), ("ton", "the-open-network"),
   ("pi network", "pi-network"), ("pi", "pi-network")]

/-- The keyword-scan loop of backend/tasks.py lines 31-34 and backend/main.py
lines 578-581: `for keyword in table: if keyword in question: ctx = table[keyword]; break`,
with `ctx` initialised to the sentinel.  `ql` is the already-lowercased
question. -/
def extract_context_loop : List (String × String) → String → String
  | [], _ => "the cryptocurrency market"
  | (k, v) :: rest, ql => if containsSub ql k then v else extract_context_loop rest ql

/-- Crypto-context extraction as performed by the question-processing task and
the /ask endpoint: scan `CRYPTO_KEYWORDS` over the lower-cased question. -/
def extractContext (question : String) : String :=
  extract_context_loop CRYPTO_KEYWORDS (pyLower question)

/-- backend/services.py lines 65-71 `CryptoDataService.extract_crypto_context`:
the same scan, but returning `None` instead of the sentinel (this method is
never called by the pipeline). -/
def extract_crypto_context_go : List (String × String) → String → Option String
  | [], _ => none
  | (k, v) :: rest, ql => if containsSub ql k then some v else extract_crypto_context_go rest ql

/-- backend/services.py `extract_crypto_context` entry point. -/
def extract_crypto_context (question : String) : Option String :=
  extract_crypto_context_go CRYPTO_KEYWORDS (pyLower question)

/-- Model of Python `f"{x:.2f}"` on a rational (rounds half-up; Python rounds
half-to-even - no claim depends on exact ties). -/
def formatFixed2 (x : ℚ) : String :=
  let n : Int := round (x * 100)
  let sign := if n < 0 then "-" else ""
  let m := n.natAbs
  let r := m % 100
  sign ++ toString (m / 100) ++ "." ++ (if r < 10 then "0" ++ toString r else toString r)

/-- Model of Python `f"{x}"` (str of a number) - the exact digits are
irrelevant to every claim, only determinism matters. -/
def pyStr (x : ℚ) : String := toString x

/-- backend/utils.py lines 4-14 `format_large_number` (identical copy in
backend/main.py lines 348-358). -/
def format_large_number (num : ℚ) : String :=
  if num ≥ 1000000000000 then formatFixed2 (num / 1000000000000) ++ "T"
  else if num ≥ 1000000000 then formatFixed2 (num / 1000000000) ++ "B"
  else if num ≥ 1000000 then formatFixed2 (num / 1000000) ++ "M"
  else if num ≥ 1000 then formatFixed2 (num / 1000) ++ "K"
  else formatFixed2 num

/-- backend/utils.py lines 16-23 `get_coin_metrics` (identical copy in
backend/main.py lines 665-672). -/
def get_coin_metrics (coin_data : Coin) : List (String × String) :=
  [("price", "$" ++ pyStr coin_data.current_price),
   ("marketCap", "$" ++ format_large_number coin_data.market_cap),
   ("volume24h", "$" ++ format_large_number coin_data.total_volume),
   ("change24h", pyStr coin_data.price_change_percentage_24h ++ "%")]

/-- backend/utils.py lines 25-35 `get_market_overview_metrics` (identical copy
in backend/main.py lines 674-685).  `avg_change` divides the summed 24h change
by `len(market_data)`; on an empty list Python raises `ZeroDivisionError`,
embedded here as the explicit error branch. -/
def get_market_overview_metrics (market_data : List Coin) : Except String (List (String × String)) :=
  if market_data.length = 0 then .error "ZeroDivisionError"
  else
    let total_market_cap := (market_data.map (fun c => c.market_cap)).sum
    let total_volume := (market_data.map (fun c => c.total_volume)).sum
    let avg_change := (market_data.map (fun c => c.price_change_percentage_24h)).sum / (market_data.length : ℚ)
    .ok [("totalMarketCap", "$" ++ format_large_number total_market_cap),
         ("totalVolume", "$" ++ format_large_number total_volume),
         ("avgChange24h", formatFixed2 avg_change ++ "%"),
         ("coinsAnalyzed", toString market_data.length)]

/-- The guarded call sites of `get_market_overview_metrics`
(backend/main.py lines 595-599, backend/tasks.py lines 47-50):
`metrics = {}` and only `if market_data: metrics = get_market_overview_metrics(market_data)`. -/
def overview_metrics_step (market_data : List Coin) : Except String (List (String × String)) :=
  if market_data.isEmpty then .ok []
  else get_market_overview_metrics market_data

/-- Outcome of one outbound `requests.get` to the upstream market API:
a transport error, or a response with its HTTP status and the result of
parsing its JSON body. -/
inductive HttpResult where
  | netError
  | resp (status : Nat) (body : Except String (List Coin))

/-- True when the upstream call did not deliver a parseable success payload:
network error, a status `raise_for_status` raises on (≥ 400, including 429),
or a body that is not valid JSON. -/
def upstreamFailed : HttpResult → Bool
  | .netError => true
  | .resp _ (.error _) => true
  | .resp status (.ok _) => decide (400 ≤ status)

/-- The `try:` block of `CryptoDataService.get_market_data`
(backend/services.py lines 73-119; backend/main.py lines 197-244 is the same
code): cache check at time `t₁`; on a miss the politeness sleep and the
outbound call advance the clock to `t₂`; HTTP 429 re-reads the cache and
degrades to `[]` inside the `try:`; other failures (network error,
`raise_for_status` on status ≥ 400, malformed JSON) raise; success stores the
payload with the `market_data` TTL.  The third component counts outbound
upstream calls. -/
def get_market_data_try (st : Store) (t₁ t₂ : Nat) (vs_currency : String) (limit : Nat)
    (up : HttpResult) : Except String (List Coin × Store × Nat) :=
  let cache_key := get_cache_key "market_data" (vs_currency ++ "_" ++ toString limit)
  match readMarket st t₁ cache_key with
  | some cached => .ok (cached, st, 0)
  | none =>
    match up with
    | .netError => .error "requests.ConnectionError"
    | .resp status body =>
      if status == 429 then
        match readMarket st t₂ cache_key with
        | some cached => .ok (cached, st, 1)
        | none => .ok ([], st, 1)
      else if 400 ≤ status then .error ("HTTPError " ++ toString status)
      else
        match body with
        | .error e => .error e
        | .ok data =>
          .ok (data, st.setex t₂ (ttlOf CACHE_TTLS "market_data") cache_key (.marketList data), 1)

/-- The `except Exception:` handler of `get_market_data`
(backend/services.py lines 121-128): re-read the cache and serve whatever is
there, else return `[]`. -/
def market_stale_fallback (st : Store) (t₂ : Nat) (cache_key : String) : List Coin × Store × Nat :=
  match readMarket st t₂ cache_key with
  | some cached => (cached, st, 1)
  | none => ([], st, 1)

/-- `get_market_data` as its caller sees it: the `try:` body completed by the
catch-all handler.  An `.error` result would mean an exception escaping to
the caller; claim C1 proves this never happens. -/
def get_market_data_call (st : Store) (t₁ t₂ : Nat) (vs_currency : String) (limit : Nat)
    (up : HttpResult) : Except String (List Coin × Store × Nat) :=
  match get_market_data_try st t₁ t₂ vs_currency limit up with
  | .ok r => .ok r
  | .error _ =>
    .ok (market_stale_fallback st t₂ (get_cache_key "market_data" (vs_currency ++ "_" ++ toString limit)))

/-- `get_market_data` as a total function (justified by C1: the call never
raises). -/
def get_market_data (st : Store) (t₁ t₂ : Nat) (vs_currency : String) (limit : Nat)
    (up : HttpResult) : List Coin × Store × Nat :=
  match get_market_data_try st t₁ t₂ vs_currency limit up with
  | .ok r => r
  | .error _ =>
    market_stale_fallback st t₂ (get_cache_key "market_data" (vs_currency ++ "_" ++ toString limit))

/-- backend/main.py lines 254-292 `CryptoDataService.get_coin_by_name`:
cache check (the "null" sentinel string is truthy, so it is a hit returning
`None`); on a miss search the top-100 market data for an exact id/symbol
match, then cache the result - or the sentinel - with `self.default_ttl`
(`REDIS_CACHE_TTL`).  The `except` handler is unreachable in the model since
`get_market_data` never raises and the store is modelled available.
`http`/`calls` thread the outbound-call oracle and counter. -/
def MainApp.get_coin_by_name (st : Store) (t : Nat) (name : String)
    (http : Nat → HttpResult) (calls : Nat) : Option Coin × Store × Nat :=
  let cache_key := get_cache_key "coin" name
  match readCoinEntry st t cache_key with
  | some c => (c, st, calls)
  | none =>
    let r := get_market_data st t t "usd" 100 (http calls)
    let name_lower := pyLower name
    let coin := r.1.find? (fun c => pyLower c.id == name_lower || pyLower c.symbol == name_lower)
    (coin, (r.2.1).setex t REDIS_CACHE_TTL cache_key (.coinVal coin), calls + r.2.2)

/-- backend/services.py lines 130-166 `CryptoDataService.get_coin_by_name`:
cache check, then a direct upstream query filtered to the id.  Only a 200
response with a non-empty payload is cached (with the `coin_data` TTL); an
empty payload, a non-200 status, a transport error or malformed JSON all
fall through to `return None` *without writing anything*. -/
def Services.get_coin_by_name (st : Store) (t : Nat) (name : String)
    (up : HttpResult) : Option Coin × Store × Nat :=
  let cache_key := get_cache_key "coin" name
  match readCoinEntry st t cache_key with
  | some c => (c, st, 0)
  | none =>
    match up with
    | .netError => (none, st, 1)
    | .resp status body =>
      if status == 200 then
        match body with
        | .error _ => (none, st, 1)
        | .ok [] => (none, st, 1)
        | .ok (c :: _) =>
          (some c, st.setex t (ttlOf CACHE_TTLS "coin_data") cache_key (.coinVal (some c)), 1)
      else (none, st, 1)

/-- The prediction/forecast terms of backend/main.py line 451. -/
def predTerms : List String := ["predict", "forecast", "future"]

/-- backend/main.py lines 437-448: the context-aware label/confidence
adjustment of `analyze_sentiment_with_context` (a name for the inlined
if-chain; `ql` is the lower-cased question). -/
def contextAdjust (ql sentiment : String) (confidence : ℚ) : Option Coin → String × ℚ
  | some c =>
    let price_change := c.price_change_percentage_24h
    if sentiment == "POSITIVE" && decide (price_change < -5)
        && anyTerm ql ["price", "trend", "going up"] then
      ("NEGATIVE", min confidence (8/10 : ℚ))
    else if sentiment == "NEGATIVE" && decide (price_change > 5)
        && anyTerm ql ["price", "trend", "going down"] then
      ("POSITIVE", min confidence (8/10 : ℚ))
    else (sentiment, confidence)
  | none => (sentiment, confidence)

/-- backend/main.py lines 414-466 `analyze_sentiment_with_context`: cache
check; on a miss run the classifier (`raw` is its outcome - `.error` if the
pipeline call raises), uppercase the label, cap the score at 0.95, apply the
context overrides (label flipped and confidence capped at 0.8 when the label
contradicts a strong price move and the question mentions price/trend), cap
at 0.7 for prediction questions, then cache and return the final result. -/
def MainApp.analyze_sentiment_with_context (st : Store) (t : Nat) (question : String)
    (context : Option Coin) (raw : Except String SentimentResult) :
    Except String (SentimentResult × Store) :=
  let cache_key := get_cache_key "sentiment" question
  match readSent st t cache_key with
  | some cached => .ok (cached, st)
  | none =>
    match raw with
    | .error e => .error e
    | .ok result =>
      let ql := pyLower question
      let sentiment := pyUpper result.label
      let confidence := min result.score (95/100 : ℚ)
      let adjusted := contextAdjust ql sentiment confidence context
      let confidence := if anyTerm ql predTerms then min adjusted.2 (7/10 : ℚ) else adjusted.2
      let final_result : SentimentResult := ⟨adjusted.1, confidence⟩
      .ok (final_result, st.setex t (ttlOf MAIN_CACHE_TTLS "sentiment") cache_key (.sentimentVal final_result))

/-- backend/services.py lines 226-247 `SentimentAnalyzer.analyze_sentiment_with_context`:
cache check; on a miss run the classifier, and only when the caller passed a
dict containing the key "price_change_24h" whose sign agrees with the label
is the score boosted by 1.1 and capped at 0.95; otherwise the raw classifier
result is cached and returned unchanged - no unconditional 0.95 cap and no
prediction ceiling. -/
def SentimentAnalyzer.analyze_sentiment_with_context (st : Store) (t : Nat) (question : String)
    (context : Option (List (String × ℚ))) (raw : Except String SentimentResult) :
    Except String (SentimentResult × Store) :=
  let cache_key := get_cache_key "sentiment" question
  match readSent st t cache_key with
  | some cached => .ok (cached, st)
  | none =>
    match raw with
    | .error e => .error e
    | .ok result =>
      let result :=
        match context with
        | some ctx =>
          match ctx.lookup "price_change_24h" with
          | some price_change =>
            if (result.label == "POSITIVE" && decide (price_change > 0))
                || (result.label == "NEGATIVE" && decide (price_change < 0)) then
              { result with score := min (result.score * (11/10 : ℚ)) (95/100 : ℚ) }
            else result
          | none => result
        | none => result
      .ok (result, st.setex t (ttlOf CACHE_TTLS "sentiment") cache_key (.sentimentVal result))

/-- backend/main.py lines 360-410 `generate_ai_response` (backend/services.py
lines 168-218 is the same code as a method): keyword dispatch over the
lower-cased question; the general-market branches fetch a 5- or 10-coin
snapshot through the gateway, so the store, call oracle and call counter are
threaded through. -/
def generate_ai_response (st : Store) (t : Nat) (question : String) (sentiment : String)
    (coin_data : Option Coin) (http : Nat → HttpResult) (calls : Nat) :
    String × Store × Nat :=
  let _ := sentiment
  let question_lower := pyLower question
  let key_terms := ["price", "trend", "market cap", "volume", "prediction", "future", "sentiment"].filter
    (fun term => containsSub question_lower term)
  match coin_data with
  | some c =>
    let price_change := c.price_change_percentage_24h
    let price_direction := if price_change > 0 then "up" else "down"
    if key_terms.contains "price" || key_terms.contains "trend" then
      let sentiment_desc :=
        if price_change > 5 then "showing strong bullish momentum"
        else if price_change > 2 then "trending positively"
        else if price_change < -5 then "showing significant bearish pressure"
        else if price_change < -2 then "trending negatively"
        else "relatively stable"
      (c.name ++ " is " ++ sentiment_desc ++ ", moving " ++ price_direction ++ " "
         ++ formatFixed2 |price_change| ++ "% in the last 24 hours. The current price is $"
         ++ pyStr c.current_price ++ ".", st, calls)
    else if containsSub question_lower "predict" || containsSub question_lower "forecast" then
      ("While I can't predict prices with certainty, " ++ c.name ++ " has moved "
         ++ price_direction ++ " " ++ formatFixed2 |price_change|
         ++ "% in the last 24 hours with a trading volume of $"
         ++ format_large_number c.total_volume ++ ".", st, calls)
    else
      (c.name ++ " currently has a market cap of $" ++ format_large_number c.market_cap
         ++ " and is trading at $" ++ pyStr c.current_price
         ++ ". In the last 24 hours, the price has changed by "
         ++ formatFixed2 price_change ++ "%.", st, calls)
  | none =>
    if containsSub question_lower "top"
        && anyTerm question_lower ["5", "10", "five", "ten"] then
      let r := get_market_data st t t "usd" 5 (http calls)
      let coins := (r.1.take 5).enum.map
        (fun p => toString (p.1 + 1) ++ ". " ++ p.2.name ++ " ($" ++ pyStr p.2.current_price ++ ")")
      ("The top 5 cryptos by market cap are: \n" ++ String.intercalate "\n" coins,
       r.2.1, calls + r.2.2)
    else if containsSub question_lower "sentiment" || containsSub question_lower "market" then
      let r := get_market_data st t t "usd" 10 (http calls)
      let positive_count := (r.1.filter (fun c => c.price_change_percentage_24h > 0)).length
      let overall := if positive_count > 5 then "bullish" else "bearish"
      ("The overall market sentiment appears to be " ++ overall ++ ". "
         ++ toString positive_count
         ++ " of the top 10 cryptocurrencies are showing positive price movement in the last 24 hours.",
       r.2.1, calls + r.2.2)
    else
      ("Based on current market data, cryptocurrencies are showing mixed performance. For specific insights, try asking about a particular coin or market metric.",
       st, calls)

/-- backend/main.py lines 469-498 `get_sentiment_explanation` (the
`confidence` parameter is accepted and unused, as in the source). -/
def MainApp.get_sentiment_explanation (sentiment : String) (confidence : ℚ)
    (coin_data : Option Coin) : String :=
  let _ := confidence
  let sentiment_lower := pyLower sentiment
  match coin_data with
  | none =>
    if sentiment_lower == "positive" then
      "The sentiment appears positive based on the optimistic language in your question."
    else if sentiment_lower == "negative" then
      "The sentiment appears negative based on the cautious language in your question."
    else
      "The sentiment appears neutral based on the balanced language in your question."
  | some c =>
    let price_change := c.price_change_percentage_24h
    if sentiment_lower == "positive" then
      if price_change > 0 then
        "The sentiment is positive due to the " ++ formatFixed2 price_change
          ++ "% price increase in the last 24 hours."
      else
        "Despite the recent price movement, the overall sentiment remains positive based on market indicators."
    else if sentiment_lower == "negative" then
      if price_change < 0 then
        "The sentiment is negative due to the " ++ formatFixed2 |price_change|
          ++ "% price decrease in the last 24 hours."
      else
        "Despite the recent positive price movement, there are concerns in the market leading to a negative sentiment."
    else
      "The market sentiment appears neutral, indicating a balance between positive and negative factors."

/-- The external world one `/ask` request sees: the outcome the transformer
pipeline would produce if invoked (`.error` when that call raises), and the
outcome of the n-th outbound upstream HTTP call. -/
structure World where
  classifier : Except String SentimentResult
  http : Nat → HttpResult

/-- The fixed fallback text of backend/main.py line 659. -/
def fallbackText : String :=
  "I apologize, but I'm having trouble processing your request at this time. Please try again."

/-- The `try:` body of the `/ask` endpoint, backend/main.py lines 503-643
(`process_question`): full-response cache check; context extraction; data
fetching with metrics; sentiment analysis; response generation; caching of
the composed response under the `full_response` key - with main.py's own
`CACHE_TTLS['sentiment']` as the TTL (line 629).  An `.error` outcome carries
the exception, the store as already mutated, and the metrics accumulated so
far, all of which the `except` handler can see. -/
def process_question_core (st : Store) (t : Nat) (rq : String) (w : World) :
    Except (String × Store × List (String × String)) (AIResponse × Store) :=
  let cache_key := get_cache_key "full_response" rq
  match readResp st t cache_key with
  | some cached => .ok (cached, st)
  | none =>
    let question := pyLower rq
    let crypto_context := extract_context_loop CRYPTO_KEYWORDS question
    let fetched : Except (String × Store × List (String × String))
        ((Option Coin × List (String × String)) × Store × Nat) :=
      if crypto_context ≠ "the cryptocurrency market" then
        let r := MainApp.get_coin_by_name st t crypto_context w.http 0
        match r.1 with
        | some c => .ok ((some c, get_coin_metrics c), r.2.1, r.2.2)
        | none => .ok ((none, []), r.2.1, r.2.2)
      else
        let r := get_market_data st t t "usd" 10 (w.http 0)
        match overview_metrics_step r.1 with
        | .ok m => .ok ((none, m), r.2.1, r.2.2)
        | .error e => .error (e, r.2.1, [])
    match fetched with
    | .error e => .error e
    | .ok ((coin_data, metrics), st₁, n₁) =>
      match MainApp.analyze_sentiment_with_context st₁ t question coin_data w.classifier with
      | .error e => .error (e, st₁, metrics)
      | .ok (sres, st₂) =>
        let g := generate_ai_response st₂ t question sres.label coin_data w.http n₁
        let response_text := g.1 ++ "\n" ++ "\n"
          ++ MainApp.get_sentiment_explanation sres.label sres.score coin_data
        let response : AIResponse := ⟨response_text, sres.label, sres.score, metrics⟩
        .ok (response, (g.2.1).setex t (ttlOf MAIN_CACHE_TTLS "sentiment") cache_key (.fullResp response))

/-- The `/ask` endpoint as the client sees it: the `try:` body completed by
the `except` handler of backend/main.py lines 645-663, which serves a stale
cached response if one exists and otherwise the literal fallback with the
metrics accumulated before the failure. -/
def process_question (st : Store) (t : Nat) (rq : String) (w : World) : AIResponse × Store :=
  match process_question_core st t rq w with
  | .ok r => r
  | .error (_, stE, metrics) =>
    let cache_key := get_cache_key "full_response" rq
    match readResp stE t cache_key with
    | some stale => (stale, stE)
    | none => (⟨fallbackText, "NEUTRAL", 1/2, metrics⟩, stE)

/-- One state a Celery task result can end in as seen by the caller. -/
inductive TaskState where
  | SUCCESS (r : AIResponse)
  | FAILURE (msg : String)
deriving DecidableEq

/-- backend/tasks.py lines 10-81 `process_question_task`, abstracted over the
outcome of its `try:` body (`attempts k` is what the body's k-th execution
would produce; its internals are the same pipeline as `/ask`).  The
`except Exception` handler re-raises `RuntimeError(f"Error in
process_question_task: {e}")` - it does not call `self.retry`. -/
def process_question_task_run (attempts : Nat → Except String AIResponse) (k : Nat) :
    Except String AIResponse :=
  match attempts k with
  | .ok r => .ok r
  | .error e => .error ("Error in process_question_task: " ++ e)

/-- Celery dispatch for this task as configured in this repository: the task
is registered with a bare `@shared_task` (backend/tasks.py line 10) and
neither `celery_app.py` nor the task sets `autoretry_for`, `max_retries`,
`retry_backoff` or calls `self.retry`, so the worker runs the body exactly
once per delivery; an escaping exception marks the task FAILURE (the worker
itself survives).  Returned: the final state the caller observes, the number
of attempts executed, and the list of retry delays honored. -/
def celery_execute (attempts : Nat → Except String AIResponse) :
    TaskState × Nat × List Nat :=
  match process_question_task_run attempts 0 with
  | .ok r => (.SUCCESS r, 1, [])
  | .error e => (.FAILURE e, 1, [])

/-- Concrete fixtures used by witnesses and counterexamples below. -/
def btcCoin : Coin :=
  ⟨"bitcoin", "btc", "Bitcoin", 50000, 1000000000000, 50000000000, 5/2⟩

/-- A store holding a fresh cached snapshot for bitcoin under its coin key. -/
def stWithBtc : Store := ⟨[("coin:bitcoin", .coinVal (some btcCoin), 100)]⟩

/-- A world whose classifier call raises and whose upstream is down. -/
def failWorld : World := ⟨.error "model failure", fun _ => .netError⟩

/-- A world with a working classifier (neutral, 0.5) and a dead upstream. -/
def neutralWorld : World := ⟨.ok ⟨"Neutral", 1/2⟩, fun _ => .netError⟩

/-- A task body that raises on its first two attempts and succeeds on the
third - the scenario of claim C2. -/
def c2Attempts : Nat → Except String AIResponse :=
  fun k => if k < 2 then .error "boom" else .ok ⟨"answer", "POSITIVE", 9/10, []⟩

/-
Helper lemmas about the store and the embedding, shared by several claims.
-/

/-- The entry just written by `setex` is the one found under its key. -/
theorem Store.lookupEntry_setex_self (s : Store) (now ttl : Nat) (k : String) (v : CacheVal) :
    (s.setex now ttl k v).lookupEntry k = some (v, now + ttl) := by
  simp [Store.setex, Store.lookupEntry, List.find?]

/-- A raw entry that has not expired is what `GET` returns. -/
theorem Store.get_of_lookupEntry {s : Store} {k : String} {v : CacheVal} {e now : Nat}
    (h : s.lookupEntry k = some (v, e)) (hnow : now < e) : s.get now k = some v := by
  unfold Store.lookupEntry at h
  unfold Store.get
  cases hf : s.entries.find? (fun p => p.1 == k) with
  | none => simp [hf] at h
  | some p =>
    obtain ⟨k', v', e'⟩ := p
    simp only [hf] at h
    have h' : v' = v ∧ e' = e := by
      have hs : some (v', e') = some (v, e) := h
      have := Option.some.inj hs
      exact ⟨congrArg Prod.fst this, congrArg Prod.snd this⟩
    obtain ⟨rfl, rfl⟩ := h'
    simp [hnow]

/-- Two strings differ only in letter case: same length, and corresponding
characters agree after case folding. -/
def differOnlyInCase (a b : String) : Prop :=
  List.Forall₂ (fun c d => Char.toLower c = Char.toLower d) a.data b.data

/-- Case folding maps case-variant strings to the same string. -/
theorem pyLower_eq_of_differOnlyInCase {a b : String} (h : differOnlyInCase a b) :
    pyLower a = pyLower b := by
  unfold pyLower
  congr 1
  have key : ∀ (l₁ l₂ : List Char),
      List.Forall₂ (fun c d => Char.toLower c = Char.toLower d) l₁ l₂ →
      l₁.map Char.toLower = l₂.map Char.toLower := by
    intro l₁ l₂ hl
    induction hl with
    | nil => rfl
    | cons hc _ ih => simp [List.map_cons, hc, ih]
  exact key _ _ h

/-- C9: cache key derivation is deterministic and case-insensitive - for
every namespace prefix, two identifiers that differ only in letter case
produce the same cache key, so both requests address the same entry. -/
theorem get_cache_key_case_insensitive (pre a b : String) (h : differOnlyInCase a b) :
    get_cache_key pre a = get_cache_key pre b := by
  unfold get_cache_key
  rw [pyLower_eq_of_differOnlyInCase h]

/-- Witness for C9 at the concrete pair "Bitcoin" and "bitcoin" under the
"coin" namespace. -/
theorem get_cache_key_case_insensitive_witness :
    get_cache_key "coin" "Bitcoin" = get_cache_key "coin" "bitcoin" := by
  refine get_cache_key_case_insensitive "coin" "Bitcoin" "bitcoin" ?_
  unfold differOnlyInCase
  refine List.Forall₂.cons (by decide) ?_
  refine List.Forall₂.cons (by decide) ?_
  refine List.Forall₂.cons (by decide) ?_
  refine List.Forall₂.cons (by decide) ?_
  refine List.Forall₂.cons (by decide) ?_
  refine List.Forall₂.cons (by decide) ?_
  refine List.Forall₂.cons (by decide) ?_
  exact List.Forall₂.nil

/-- The keyword-scan loop returns the value of the first matching table
entry, and the sentinel when no entry matches. -/
theorem extract_context_loop_eq_find (l : List (String × String)) (ql : String) :
    extract_context_loop l ql =
      match l.find? (fun p => containsSub ql p.1) with
      | some p => p.2
      | none => "the cryptocurrency market" := by
  induction l with
  | nil => rfl
  | cons hd tl ih =>
    obtain ⟨k, v⟩ := hd
    cases hc : containsSub ql k with
    | true => simp [extract_context_loop, List.find?, hc]
    | false => simp [extract_context_loop, List.find?, hc, ih]

/-- C8: crypto-context extraction scans the fixed keyword table in iteration
order and returns the canonical id of the first keyword occurring as a
substring of the lower-cased question (first-match-wins), defaulting to the
sentinel "the cryptocurrency market" when nothing matches.  The concrete
conjuncts show first-match-wins is not longest-match: the question contains
the later, longer keyword "bitcoin cash", yet the earlier "bitcoin" wins. -/
theorem extractContext_first_match :
    (∀ q : String, extractContext q =
      match CRYPTO_KEYWORDS.find? (fun p => containsSub (pyLower q) p.1) with
      | some p => p.2
      | none => "the cryptocurrency market") ∧
    extractContext "Is Bitcoin Cash rising?" = "bitcoin" ∧
    containsSub (pyLower "Is Bitcoin Cash rising?") "bitcoin cash" = true ∧
    extractContext "hello" = "the cryptocurrency market" := by
  refine ⟨?_, by rfl, by rfl, by rfl⟩
  intro q
  exact extract_context_loop_eq_find CRYPTO_KEYWORDS (pyLower q)

/-- C10: `get_market_overview_metrics` divides by the length of its input, so
it raises (ZeroDivisionError) exactly on the empty list; the guarded call
sites (`if market_data:`) never raise and degrade to empty metrics when the
gateway returned an empty sequence. -/
theorem overview_metrics_total_when_guarded :
    get_market_overview_metrics [] = .error "ZeroDivisionError" ∧
    (∀ md : List Coin, md ≠ [] → ∃ m, get_market_overview_metrics md = .ok m) ∧
    (∀ md : List Coin, ∃ m, overview_metrics_step md = .ok m) ∧
    overview_metrics_step [] = .ok [] := by
  have hnonempty : ∀ md : List Coin, md ≠ [] → ∃ m, get_market_overview_metrics md = .ok m := by
    intro md h
    unfold get_market_overview_metrics
    rw [if_neg (fun hl => h (List.length_eq_zero.mp hl))]
    exact ⟨_, rfl⟩
  refine ⟨rfl, hnonempty, ?_, rfl⟩
  intro md
  cases md with
  | nil => exact ⟨[], rfl⟩
  | cons a l =>
    have := hnonempty (a :: l) (List.cons_ne_nil a l)
    obtain ⟨m, hm⟩ := this
    exact ⟨m, by simpa [overview_metrics_step] using hm⟩

/-- Witness for C10 at a one-element market list. -/
theorem overview_metrics_total_when_guarded_witness :
    ∃ m, get_market_overview_metrics [btcCoin] = .ok m :=
  overview_metrics_total_when_guarded.2.1 [btcCoin] (List.cons_ne_nil btcCoin [])

/-- C2 (amended): the question-processing task is registered without any
retry configuration, so it executes exactly once - a successful body delivers
its result, an exception surfaces immediately as a task FAILURE (the
re-raised RuntimeError), with zero retry delays honored and without crashing
the worker. -/
theorem process_question_task_no_retry (attempts : Nat → Except String AIResponse) :
    (∀ r, attempts 0 = .ok r → celery_execute attempts = (.SUCCESS r, 1, [])) ∧
    (∀ e, attempts 0 = .error e →
      celery_execute attempts = (.FAILURE ("Error in process_question_task: " ++ e), 1, [])) := by
  constructor
  · intro r h
    simp [celery_execute, process_question_task_run, h]
  · intro e h
    simp [celery_execute, process_question_task_run, h]

/-- Witness for C2's amended theorem at the concrete failing body. -/
theorem process_question_task_no_retry_witness :
    celery_execute c2Attempts = (.FAILURE ("Error in process_question_task: " ++ "boom"), 1, []) :=
  (process_question_task_no_retry c2Attempts).2 "boom" rfl

/-- Counterexample to C2 as stated: a task body that raises on its first two
attempts and succeeds on the third does NOT deliver the successful result
with two retry delays - the caller observes a FAILURE after a single attempt
and zero delays, because no retry policy is configured. -/
theorem process_question_task_retry_scenario_fails :
    celery_execute c2Attempts = (.FAILURE "Error in process_question_task: boom", 1, []) ∧
    c2Attempts 0 = .error "boom" ∧
    c2Attempts 1 = .error "boom" ∧
    c2Attempts 2 = .ok ⟨"answer", "POSITIVE", 9/10, []⟩ :=
  ⟨rfl, rfl, rfl, rfl⟩

/-- C3 (amended, main-module part): on a sentiment-cache miss the `/ask`
analyzer computes a confidence in [0, 0.95] (given a nonnegative raw
classifier score) - the 0.95 cap applied at the point of computation - and
for questions containing a prediction/forecast/future term the result is
additionally capped at 0.7 after all other adjustments. -/
theorem analyze_sentiment_conf_bounds (st : Store) (t : Nat) (q : String) (context : Option Coin)
    (r : SentimentResult) (h0 : 0 ≤ r.score)
    (hmiss : readSent st t (get_cache_key "sentiment" q) = none) :
    ∃ res st', MainApp.analyze_sentiment_with_context st t q context (.ok r) = .ok (res, st') ∧
      0 ≤ res.score ∧ res.score ≤ 95/100 ∧
      (anyTerm (pyLower q) predTerms = true → res.score ≤ 7/10) := by
  have h1 : (0 : ℚ) ≤ min r.score (95/100) := le_min h0 (by norm_num)
  have h2 : min r.score (95/100 : ℚ) ≤ 95/100 := min_le_right _ _
  have hadj : 0 ≤ (contextAdjust (pyLower q) (pyUpper r.label) (min r.score (95/100)) context).2 ∧
      (contextAdjust (pyLower q) (pyUpper r.label) (min r.score (95/100)) context).2 ≤ 95/100 := by
    cases context with
    | none => exact ⟨h1, h2⟩
    | some c =>
      unfold contextAdjust
      dsimp only
      split
      · exact ⟨le_min h1 (by norm_num), le_trans (min_le_left _ _) h2⟩
      · split
        · exact ⟨le_min h1 (by norm_num), le_trans (min_le_left _ _) h2⟩
        · exact ⟨h1, h2⟩
  unfold MainApp.analyze_sentiment_with_context
  simp only [hmiss]
  refine ⟨_, _, rfl, ?_, ?_, ?_⟩ <;> dsimp only
  · split
    · exact le_min hadj.1 (by norm_num)
    · exact hadj.1
  · split
    · exact le_trans (min_le_left _ _) hadj.2
    · exact hadj.2
  · intro hpred
    rw [if_pos hpred]
    exact min_le_right _ _

/-- Witness for C3's amended theorem at a concrete prediction question with a
raw classifier score of 0.9. -/
theorem analyze_sentiment_conf_bounds_witness :
    ∃ res st', MainApp.analyze_sentiment_with_context Store.empty 0 "predict bitcoin future" none
        (.ok ⟨"Positive", 9/10⟩) = .ok (res, st') ∧
      0 ≤ res.score ∧ res.score ≤ 95/100 ∧
      (anyTerm (pyLower "predict bitcoin future") predTerms = true → res.score ≤ 7/10) :=
  analyze_sentiment_conf_bounds Store.empty 0 "predict bitcoin future" none
    ⟨"Positive", 9/10⟩ (by norm_num) rfl

/-- Counterexample to C3 as stated: the `SentimentAnalyzer` variant of
`analyze_sentiment_with_context` (backend/services.py lines 226-247), used by
the question-processing task, applies no prediction ceiling - on the
prediction-phrased question "predict bitcoin future" with raw classifier
score 0.9 it returns 0.9, above the claimed 0.7 bound (and its only 0.95 cap
sits on the context-boost branch). -/
theorem sentiment_service_no_prediction_cap :
    (SentimentAnalyzer.analyze_sentiment_with_context Store.empty 0 "predict bitcoin future" none
        (.ok ⟨"Positive", 9/10⟩)).toOption.map (fun p => p.1.score) = some (9/10) ∧
    anyTerm (pyLower "predict bitcoin future") predTerms = true ∧
    ¬ ((9/10 : ℚ) ≤ 7/10) :=
  ⟨rfl, rfl, by norm_num⟩

/-- C7 bug exhibit: a successful `/ask` run writes its `full_response` entry
with main.py's `CACHE_TTLS['sentiment']` (3600 s, line 629) - not the
`full_response` TTL (1800 s) that cache_utils.py defines and that the spec
requires; main.py's own TTL dict has no `full_response` key at all. -/
theorem full_response_written_with_sentiment_ttl :
    ((process_question Store.empty 0 "hello" neutralWorld).2.lookupEntry
        (get_cache_key "full_response" "hello")).map Prod.snd = some 3600 ∧
    ttlOf MAIN_CACHE_TTLS "sentiment" = 3600 ∧
    ttlOf CACHE_TTLS "full_response" = 1800 ∧
    MAIN_CACHE_TTLS.lookup "full_response" = none ∧
    ttlOf MAIN_CACHE_TTLS "sentiment" ≠ ttlOf CACHE_TTLS "full_response" :=
  ⟨rfl, rfl, rfl, rfl, by decide⟩

/-- C1: `get_market_data` never raises to its caller - the catch-all
completion always yields a value - and on any upstream failure (HTTP 429,
network error, raising status, malformed payload) with no usable cache entry
it returns the empty sequence with the store unchanged; when the stale
re-read does find an entry, that entry is served. -/
theorem get_market_data_never_raises (st : Store) (t₁ t₂ : Nat) (vs_currency : String)
    (limit : Nat) (up : HttpResult) :
    get_market_data_call st t₁ t₂ vs_currency limit up =
      .ok (get_market_data st t₁ t₂ vs_currency limit up) ∧
    (upstreamFailed up = true →
      readMarket st t₁ (get_cache_key "market_data" (vs_currency ++ "_" ++ toString limit)) = none →
      readMarket st t₂ (get_cache_key "market_data" (vs_currency ++ "_" ++ toString limit)) = none →
      get_market_data st t₁ t₂ vs_currency limit up = ([], st, 1)) ∧
    (∀ v, upstreamFailed up = true →
      readMarket st t₁ (get_cache_key "market_data" (vs_currency ++ "_" ++ toString limit)) = none →
      readMarket st t₂ (get_cache_key "market_data" (vs_currency ++ "_" ++ toString limit)) = some v →
      (get_market_data st t₁ t₂ vs_currency limit up).1 = v) := by
  refine ⟨?_, ?_, ?_⟩
  · cases h : get_market_data_try st t₁ t₂ vs_currency limit up with
    | ok r => simp [get_market_data_call, get_market_data, h]
    | error e => simp [get_market_data_call, get_market_data, h]
  · intro hfail h1 h2
    unfold get_market_data get_market_data_try
    simp only [h1]
    cases up with
    | netError => simp [market_stale_fallback, h2]
    | resp status body =>
      by_cases h429 : (status == 429) = true
      · simp [h429, h2]
      · by_cases h400 : 400 ≤ status
        · simp [h429, h400, market_stale_fallback, h2]
        · cases body with
          | error e => simp [h429, h400, market_stale_fallback, h2]
          | ok data =>
            exfalso
            have : 400 ≤ status := by simpa [upstreamFailed] using hfail
            exact h400 this
  · intro v hfail h1 h2
    unfold get_market_data get_market_data_try
    simp only [h1]
    cases up with
    | netError => simp [market_stale_fallback, h2]
    | resp status body =>
      by_cases h429 : (status == 429) = true
      · simp [h429, h2]
      · by_cases h400 : 400 ≤ status
        · simp [h429, h400, market_stale_fallback, h2]
        · cases body with
          | error e => simp [h429, h400, market_stale_fallback, h2]
          | ok data =>
            exfalso
            have : 400 ≤ status := by simpa [upstreamFailed] using hfail
            exact h400 this

/-- Witness for C1: a rate-limited (HTTP 429) upstream with an empty cache
returns the empty sequence, no exception. -/
theorem get_market_data_never_raises_witness :
    get_market_data Store.empty 0 2 "usd" 100 (.resp 429 (.error "rate limited")) =
      ([], Store.empty, 1) :=
  (get_market_data_never_raises Store.empty 0 2 "usd" 100 (.resp 429 (.error "rate limited"))).2.1
    rfl rfl rfl

/-- A coin-cache hit returns the decoded entry with the store and call
counter untouched. -/
theorem MainApp.get_coin_by_name_hit {st : Store} {t : Nat} {name : String} {c : Option Coin}
    (http : Nat → HttpResult) (calls : Nat)
    (h : readCoinEntry st t (get_cache_key "coin" name) = some c) :
    MainApp.get_coin_by_name st t name http calls = (c, st, calls) := by
  unfold MainApp.get_coin_by_name
  simp only [h]

/-- C4 (amended): in the main-module gateway a coin lookup that matches
nothing still writes the negative sentinel ("null") under the coin key - but
with `self.default_ttl` (`REDIS_CACHE_TTL`, 300 s), not the `coin_data` TTL -
so a second lookup of the same identifier within that TTL is a cache hit:
it returns absent, leaves the store unchanged and performs zero upstream
calls.  The services-module variant writes nothing at all on a no-match
(final conjunct: store unchanged after a 200/empty-payload lookup). -/
theorem coin_lookup_negative_cache (st : Store) (t t₂ : Nat) (name : String)
    (http http₂ : Nat → HttpResult) (c₂ : Nat)
    (hmiss : readCoinEntry st t (get_cache_key "coin" name) = none)
    (hnone : (MainApp.get_coin_by_name st t name http 0).1 = none)
    (ht : t₂ < t + REDIS_CACHE_TTL) :
    ((MainApp.get_coin_by_name st t name http 0).2.1).lookupEntry (get_cache_key "coin" name)
        = some (.coinVal none, t + REDIS_CACHE_TTL) ∧
    MainApp.get_coin_by_name ((MainApp.get_coin_by_name st t name http 0).2.1) t₂ name http₂ c₂
        = (none, (MainApp.get_coin_by_name st t name http 0).2.1, c₂) ∧
    (∀ (st₀ : Store) (t₀ : Nat) (n₀ : String),
      readCoinEntry st₀ t₀ (get_cache_key "coin" n₀) = none →
      (Services.get_coin_by_name st₀ t₀ n₀ (.resp 200 (.ok []))).2.1 = st₀) := by
  rcases e : get_market_data st t t "usd" 100 (http 0) with ⟨md, st₁, n⟩
  have hmain : MainApp.get_coin_by_name st t name http 0
      = (md.find? (fun c => pyLower c.id == pyLower name || pyLower c.symbol == pyLower name),
         st₁.setex t REDIS_CACHE_TTL (get_cache_key "coin" name)
           (.coinVal (md.find? (fun c => pyLower c.id == pyLower name || pyLower c.symbol == pyLower name))),
         0 + n) := by
    unfold MainApp.get_coin_by_name
    simp only [hmiss, e]
  rw [hmain] at hnone
  simp only at hnone
  have hlook : ((MainApp.get_coin_by_name st t name http 0).2.1).lookupEntry
      (get_cache_key "coin" name) = some (.coinVal none, t + REDIS_CACHE_TTL) := by
    rw [hmain]
    simp only [hnone]
    exact Store.lookupEntry_setex_self _ _ _ _ _
  refine ⟨hlook, ?_, ?_⟩
  · have hget : ((MainApp.get_coin_by_name st t name http 0).2.1).get t₂
        (get_cache_key "coin" name) = some (.coinVal none) :=
      Store.get_of_lookupEntry hlook ht
    have hread : readCoinEntry ((MainApp.get_coin_by_name st t name http 0).2.1) t₂
        (get_cache_key "coin" name) = some none := by
      unfold readCoinEntry
      rw [hget]
    exact MainApp.get_coin_by_name_hit http₂ c₂ hread
  · intro st₀ t₀ n₀ h
    unfold Services.get_coin_by_name
    simp [h]

/-- Witness for C4's amended theorem: an unknown coin against an upstream
that answers the top-100 fetch with an empty list. -/
theorem coin_lookup_negative_cache_witness :
    ((MainApp.get_coin_by_name Store.empty 0 "unknowncoin" (fun _ => .resp 200 (.ok [])) 0).2.1).lookupEntry
        (get_cache_key "coin" "unknowncoin") = some (.coinVal none, 0 + REDIS_CACHE_TTL) ∧
    MainApp.get_coin_by_name
        ((MainApp.get_coin_by_name Store.empty 0 "unknowncoin" (fun _ => .resp 200 (.ok [])) 0).2.1)
        10 "unknowncoin" (fun _ => .netError) 0
      = (none, (MainApp.get_coin_by_name Store.empty 0 "unknowncoin" (fun _ => .resp 200 (.ok [])) 0).2.1, 0) := by
  have h := coin_lookup_negative_cache Store.empty 0 10 "unknowncoin"
    (fun _ => .resp 200 (.ok [])) (fun _ => .netError) 0 rfl rfl (by decide)
  exact ⟨h.1, h.2.1⟩

/-- Counterexample to C4 as stated: at the concrete no-match lookup, the
services-module `get_coin_by_name` leaves the coin key absent (no negative
sentinel is written), and the main-module variant writes the sentinel with
TTL 300 (`REDIS_CACHE_TTL`), which is not the `coin_data` TTL of 600. -/
theorem coin_lookup_negative_cache_cex :
    (Services.get_coin_by_name Store.empty 0 "unknowncoin" (.resp 200 (.ok []))).2.1.lookupEntry
        (get_cache_key "coin" "unknowncoin") = none ∧
    ((MainApp.get_coin_by_name Store.empty 0 "unknowncoin" (fun _ => .resp 200 (.ok [])) 0).2.1).lookupEntry
        (get_cache_key "coin" "unknowncoin") = some (.coinVal none, 0 + 300) ∧
    REDIS_CACHE_TTL ≠ ttlOf CACHE_TTLS "coin_data" :=
  ⟨rfl, rfl, by decide⟩

/-- C6 (amended): when `/ask` processing raises and no stale `full_response`
entry can be served, the endpoint returns a structured answer - never an HTTP
error - namely the literal fallback with the fixed apologetic text, sentiment
"NEUTRAL", confidence 0.5, and the metrics accumulated before the failure
(empty exactly when the failure preceded metric computation). -/
theorem ask_fallback_response (st stE : Store) (t : Nat) (q : String) (w : World)
    (e : String) (metrics : List (String × String))
    (h : process_question_core st t q w = .error (e, stE, metrics))
    (hstale : readResp stE t (get_cache_key "full_response" q) = none) :
    process_question st t q w = (⟨fallbackText, "NEUTRAL", 1/2, metrics⟩, stE) := by
  unfold process_question
  rw [h]
  simp only [hstale]

/-- Witness for C6's amended theorem: a bitcoin question whose coin metrics
were computed from cache before the classifier raised. -/
theorem ask_fallback_response_witness :
    process_question stWithBtc 0 "bitcoin price" failWorld
      = (⟨fallbackText, "NEUTRAL", 1/2, get_coin_metrics btcCoin⟩, stWithBtc) :=
  ask_fallback_response stWithBtc stWithBtc 0 "bitcoin price" failWorld
    "model failure" (get_coin_metrics btcCoin) rfl rfl

/-- Counterexample to C6 as stated: on a failing run whose coin metrics were
already computed, the fallback's metrics are NOT empty - the literal
NEUTRAL/0.5/apology response carries the accumulated coin metrics. -/
theorem ask_fallback_nonempty_metrics :
    (process_question stWithBtc 0 "bitcoin price" failWorld).1.text = fallbackText ∧
    (process_question stWithBtc 0 "bitcoin price" failWorld).1.sentiment = "NEUTRAL" ∧
    (process_question stWithBtc 0 "bitcoin price" failWorld).1.confidence = 1/2 ∧
    (process_question stWithBtc 0 "bitcoin price" failWorld).1.metrics ≠ [] := by
  refine ⟨rfl, rfl, rfl, ?_⟩
  intro hcontra
  have : get_coin_metrics btcCoin = ([] : List (String × String)) := by
    rw [← hcontra]; rfl
  simp [get_coin_metrics] at this

/-- Every success path of the `/ask` body that started from a `full_response`
cache miss ends by writing the response it returns under the `full_response`
key, with main.py's sentiment TTL. -/
theorem process_question_core_ok_writes (st st' : Store) (t : Nat) (q : String) (w : World)
    (resp : AIResponse)
    (hmiss : readResp st t (get_cache_key "full_response" q) = none)
    (h : process_question_core st t q w = .ok (resp, st')) :
    st'.lookupEntry (get_cache_key "full_response" q)
      = some (.fullResp resp, t + ttlOf MAIN_CACHE_TTLS "sentiment") := by
  unfold process_question_core at h
  simp only [hmiss] at h
  by_cases hctx : extract_context_loop CRYPTO_KEYWORDS (pyLower q) ≠ "the cryptocurrency market"
  · rw [if_pos hctx] at h
    rcases hcoin : MainApp.get_coin_by_name st t (extract_context_loop CRYPTO_KEYWORDS (pyLower q)) w.http 0
      with ⟨copt, st₁, n₁⟩
    rw [hcoin] at h
    dsimp only at h
    cases copt with
    | some c =>
      dsimp only at h
      cases hs : MainApp.analyze_sentiment_with_context st₁ t (pyLower q) (some c) w.classifier with
      | error e => rw [hs] at h; exact absurd h (by simp)
      | ok p =>
        obtain ⟨sres, st₂⟩ := p
        rw [hs] at h
        dsimp only at h
        have hp := Except.ok.inj h
        have h1 := congrArg Prod.fst hp
        have h2 := congrArg Prod.snd hp
        dsimp only at h1 h2
        subst h1
        subst h2
        exact Store.lookupEntry_setex_self _ _ _ _ _
    | none =>
      dsimp only at h
      cases hs : MainApp.analyze_sentiment_with_context st₁ t (pyLower q) none w.classifier with
      | error e => rw [hs] at h; exact absurd h (by simp)
      | ok p =>
        obtain ⟨sres, st₂⟩ := p
        rw [hs] at h
        dsimp only at h
        have hp := Except.ok.inj h
        have h1 := congrArg Prod.fst hp
        have h2 := congrArg Prod.snd hp
        dsimp only at h1 h2
        subst h1
        subst h2
        exact Store.lookupEntry_setex_self _ _ _ _ _
  · rw [if_neg hctx] at h
    rcases hmd : get_market_data st t t "usd" 10 (w.http 0) with ⟨md, stm, nm⟩
    rw [hmd] at h
    dsimp only at h
    cases hov : overview_metrics_step md with
    | error e => rw [hov] at h; exact absurd h (by simp)
    | ok m =>
      rw [hov] at h
      dsimp only at h
      cases hs : MainApp.analyze_sentiment_with_context stm t (pyLower q) none w.classifier with
      | error e => rw [hs] at h; exact absurd h (by simp)
      | ok p =>
        obtain ⟨sres, st₂⟩ := p
        rw [hs] at h
        dsimp only at h
        have hp := Except.ok.inj h
        have h1 := congrArg Prod.fst hp
        have h2 := congrArg Prod.snd hp
        dsimp only at h1 h2
        subst h1
        subst h2
        exact Store.lookupEntry_setex_self _ _ _ _ _

/-- C5: for every question, when the first `/ask` call is a `full_response`
cache miss whose processing succeeds, the composed response - built from the
post-adjustment sentiment result - is cached under the `full_response` key,
and a second call within the `full_response` TTL (under any later world:
no classifier or upstream call is made) returns the identical response
verbatim from cache with the store unchanged. -/
theorem ask_idempotent_within_ttl (st st' : Store) (t₁ t₂ : Nat) (q : String) (w₁ w₂ : World)
    (resp : AIResponse)
    (hmiss : readResp st t₁ (get_cache_key "full_response" q) = none)
    (h : process_question_core st t₁ q w₁ = .ok (resp, st'))
    (ht : t₂ < t₁ + ttlOf CACHE_TTLS "full_response") :
    process_question st t₁ q w₁ = (resp, st') ∧
    process_question st' t₂ q w₂ = (resp, st') ∧
    st'.lookupEntry (get_cache_key "full_response" q)
      = some (.fullResp resp, t₁ + ttlOf MAIN_CACHE_TTLS "sentiment") := by
  have hw := process_question_core_ok_writes st st' t₁ q w₁ resp hmiss h
  have ht' : t₂ < t₁ + ttlOf MAIN_CACHE_TTLS "sentiment" := by
    have e1 : ttlOf CACHE_TTLS "full_response" = 1800 := rfl
    have e2 : ttlOf MAIN_CACHE_TTLS "sentiment" = 3600 := rfl
    rw [e1] at ht
    rw [e2]
    omega
  have hget : st'.get t₂ (get_cache_key "full_response" q) = some (.fullResp resp) :=
    Store.get_of_lookupEntry hw ht'
  have hread : readResp st' t₂ (get_cache_key "full_response" q) = some resp := by
    unfold readResp
    rw [hget]
  refine ⟨?_, ?_, hw⟩
  · unfold process_question
    rw [h]
  · have hcore : process_question_core st' t₂ q w₂ = .ok (resp, st') := by
      unfold process_question_core
      simp only [hread]
    unfold process_question
    rw [hcore]

/-- Witness for C5 at a concrete run: the second call, 10 seconds later and
against a world where classifier and upstream are both down, returns the
first call's response verbatim. -/
theorem ask_idempotent_within_ttl_witness :
    process_question ((process_question Store.empty 0 "hello" neutralWorld).2) 10 "hello" failWorld
      = process_question Store.empty 0 "hello" neutralWorld := by
  have h : process_question_core Store.empty 0 "hello" neutralWorld
      = .ok ((process_question Store.empty 0 "hello" neutralWorld).1,
             (process_question Store.empty 0 "hello" neutralWorld).2) := rfl
  have key := ask_idempotent_within_ttl Store.empty
      (process_question Store.empty 0 "hello" neutralWorld).2 0 10 "hello"
      neutralWorld failWorld (process_question Store.empty 0 "hello" neutralWorld).1
      rfl h (by decide)
  exact key.2.1
